import Mathlib

/-!
Shallow embedding of the powertui application core (`src/main.rs`).

Modelling conventions:
* Rust `f64` values read from sysfs attribute files are modelled as exact
  rationals (`ℚ`); a present field value `some v` stands for a file whose
  trimmed content parsed as the finite value `v`, and `none` covers both a
  missing file and an unparseable one.  Floating-point rounding error is not
  modelled; the inputs of interest (integer microwatt-hour sysfs values) are
  exactly representable and all theorems below are robust to it.
* Rust's saturating float-to-integer `as` casts (truncate toward zero, clamp
  to the target range) are modelled by `f64AsU8` / `f64AsU32`.  Division by
  zero yields `0` in `ℚ` where `f64` would give an infinity; no theorem below
  relies on a division by zero.
* Filesystem reads and the external `sudo cpupower` process are effects; they
  are modelled by passing the read file contents (`BatteryFiles`,
  `Option String` for the governor file) and the process outcome
  (`CmdOutcome`) as explicit arguments to the otherwise-pure functions.
-/

/-- Rust `str::trim()`: drop whitespace from both ends.  (Core's
`String.trim` is extensionally the same but is defined by well-founded
recursion on byte positions, which the kernel cannot evaluate; this
structurally recursive version computes.  Rust trims per Unicode
`White_Space`; the difference only concerns exotic whitespace characters
that never occur in the strings of interest.) -/
def rustTrim (s : String) : String :=
  String.mk (((s.data.dropWhile Char.isWhitespace).reverse.dropWhile
    Char.isWhitespace).reverse)

/-- Accumulate the value of a list of ASCII digits; fail at the first
non-digit character. -/
def parseNatAux : List Char → ℕ → Option ℕ
  | [], acc => some acc
  | c :: cs, acc =>
    if c.isDigit then parseNatAux cs (acc * 10 + (c.toNat - 48)) else none

/-- The three selectable power profiles (`enum Profile`). -/
inductive Profile
  | PowerSaver
  | Balanced
  | Performance
deriving DecidableEq

/-- `Profile::all()` — the fixed, ordered profile list. -/
def Profile.all : List Profile :=
  [Profile.PowerSaver, Profile.Balanced, Profile.Performance]

/-- `Profile::name()`. -/
def Profile.name : Profile → String
  | Profile.PowerSaver => "Power Saver"
  | Profile.Balanced => "Balanced"
  | Profile.Performance => "Performance"

/-- `Profile::governor()`. -/
def Profile.governor : Profile → String
  | Profile.PowerSaver => "powersave"
  | Profile.Balanced => "schedutil"
  | Profile.Performance => "performance"

/-- `Profile::from_governor()` — the Rust `match gov.trim()` on string
literals with a wildcard arm, written as the equivalent equality chain. -/
def Profile.from_governor (gov : String) : Option Profile :=
  let g := rustTrim gov
  if g = "powersave" then some Profile.PowerSaver
  else if g = "schedutil" then some Profile.Balanced
  else if g = "performance" then some Profile.Performance
  else none

/-- Index of a profile in `Profile.all` (the position the `refresh` loop
finds). -/
def Profile.index : Profile → ℕ
  | Profile.PowerSaver => 0
  | Profile.Balanced => 1
  | Profile.Performance => 2

/-- `struct BatteryInfo`.  `capacity` is a `u8`, modelled as `ℕ` (the parse
that produces it only yields values `≤ 255`). -/
structure BatteryInfo where
  capacity : ℕ
  status : String
  health : Option ℕ
  time_remaining : Option String
deriving DecidableEq

/-- The attribute files of the battery directory selected by
`read_battery_info`'s directory scan.  `capacity` and `status` keep their raw
string contents (the code trims and parses them itself); the four
`f64`-parsed attributes are modelled post-parse as rationals (see the header
comment). -/
structure BatteryFiles where
  capacity : Option String
  status : Option String
  energy_full : Option ℚ
  energy_full_design : Option ℚ
  power_now : Option ℚ
  energy_now : Option ℚ

/-- Rust `expr as u8` on an `f64`: truncate toward zero, saturate to
`[0, 255]`.  (For values clamped at `0` truncation and floor agree, so
`Int.toNat ∘ Int.floor` is exact.) -/
def f64AsU8 (x : ℚ) : ℕ := min (⌊x⌋.toNat) 255

/-- Rust `expr as u32` on an `f64`: truncate toward zero, saturate to
`[0, 4294967295]`. -/
def f64AsU32 (x : ℚ) : ℕ := min (⌊x⌋.toNat) 4294967295

/-- Rust `s.trim().parse::<u8>().ok()`: optional leading `+`, then a
non-empty run of ASCII digits whose value is at most `255`; anything else
fails. -/
def parse_u8 (s : String) : Option ℕ :=
  let cs :=
    match (rustTrim s).data with
    | '+' :: rest => rest
    | cs => cs
  match cs with
  | [] => none
  | _ =>
    match parseNatAux cs 0 with
    | some n => if n ≤ 255 then some n else none
    | none => none

/-- The `time_remaining` closure inside `read_battery_info` (lines 170–210),
as a function of the already-trimmed status and the attribute files. -/
def time_remaining_of (status : String) (f : BatteryFiles) : Option String :=
  match f.power_now with
  | none => none
  | some power_now =>
    if power_now ≤ 0 then none
    else
      let energyOpt : Option ℚ :=
        if status = "Charging" then
          match f.energy_full, f.energy_now with
          | some full, some now => some (full - now)
          | _, _ => none
        else f.energy_now
      match energyOpt with
      | none => none
      | some energy =>
        let hours := energy / power_now
        let h := f64AsU32 hours
        let m := f64AsU32 ((hours - (h : ℚ)) * 60)
        if status = "Charging" then
          some (toString h ++ "h " ++ toString m ++ "m until full")
        else
          some (toString h ++ "h " ++ toString m ++ "m remaining")

/-- The `status` read (lines 149–152): trim the file contents, default to
`"Unknown"` when the read failed. -/
def status_of (f : BatteryFiles) : String :=
  (f.status.map rustTrim).getD "Unknown"

/-- The `health` closure (lines 155–167): `((full / design) * 100.0) as u8`
when both attributes are present and parseable. -/
def health_of (f : BatteryFiles) : Option ℕ :=
  match f.energy_full, f.energy_full_design with
  | some full, some design => some (f64AsU8 (full / design * 100))
  | _, _ => none

/-- `read_battery_info()` (lines 128–218).  The directory scan is collapsed
into the `Option BatteryFiles` argument: `none` means no entry with
`type == "Battery"` was found. -/
def read_battery_info (bat : Option BatteryFiles) : Option BatteryInfo :=
  match bat with
  | none => none
  | some f =>
    match f.capacity.bind parse_u8 with
    | none => none
    | some capacity =>
      some ⟨capacity, status_of f, health_of f,
        time_remaining_of (status_of f) f⟩

/-- `read_current_governor()`: the governor file's contents (or `none` when
the read failed) fed to `Profile::from_governor`. -/
def read_current_governor (file : Option String) : Option Profile :=
  file.bind Profile.from_governor

/-- Outcome of launching `sudo -n cpupower frequency-set -g <governor>`. -/
inductive CmdOutcome
  | launchFailure (msg : String)
  | exited (success : Bool)

/-- `set_governor()` (lines 225–236), as a function of the process outcome.
The governor string is passed to the external command and does not otherwise
influence the result. -/
def set_governor (_governor : String) (outcome : CmdOutcome) : Except String Unit :=
  match outcome with
  | CmdOutcome.launchFailure e => Except.error e
  | CmdOutcome.exited true => Except.ok ()
  | CmdOutcome.exited false => Except.error "Need passwordless sudo for cpupower"

/-- `struct App`.  `list_state` models the ratatui `ListState` selection. -/
structure App where
  battery : Option BatteryInfo
  current_profile : Option Profile
  selected : ℕ
  list_state : Option ℕ
  message : Option String

/-- `App::move_up()`. -/
def App.move_up (a : App) : App :=
  if a.selected > 0 then
    { a with selected := a.selected - 1, list_state := some (a.selected - 1) }
  else a

/-- `App::move_down()`. -/
def App.move_down (a : App) : App :=
  if a.selected < Profile.all.length - 1 then
    { a with selected := a.selected + 1, list_state := some (a.selected + 1) }
  else a

/-- `App::select_profile()`, with the privileged command's outcome passed in. -/
def App.select_profile (a : App) (outcome : CmdOutcome) : App :=
  let profile := Profile.all.getD a.selected Profile.PowerSaver
  match set_governor profile.governor outcome with
  | Except.ok () =>
    { a with current_profile := some profile,
             message := some ("Switched to " ++ profile.name) }
  | Except.error e =>
    { a with message := some ("Error: " ++ e) }

/-- `App::refresh()`, with the battery files and governor file contents
passed in.  The `for`-loop over `Profile::all()` that moves the cursor is the
first-match search `List.findIdx?`. -/
def App.refresh (a : App) (bat : Option BatteryFiles) (govFile : Option String) :
    App :=
  let battery := read_battery_info bat
  let current := read_current_governor govFile
  let a' := { a with battery := battery, current_profile := current }
  match current with
  | some p =>
    match Profile.all.findIdx? (· == p) with
    | some i => { a' with selected := i, list_state := some i }
    | none => a'
  | none => a'

/-- Concrete input: a battery whose health attributes are 9999 / 10000. -/
def filesHealth9999 : BatteryFiles :=
  { capacity := some "50", status := some "Discharging",
    energy_full := some 9999, energy_full_design := some 10000,
    power_now := none, energy_now := none }

/-- Concrete input: the spec's health example, 8000 / 10000. -/
def filesHealth80 : BatteryFiles :=
  { capacity := some "50", status := some "Discharging",
    energy_full := some 8000, energy_full_design := some 10000,
    power_now := none, energy_now := none }

/-- Concrete input: discharging at 1000 with 1999 energy left. -/
def filesDis1999 : BatteryFiles :=
  { capacity := some "50", status := some "Discharging",
    energy_full := none, energy_full_design := none,
    power_now := some 1000, energy_now := some 1999 }

/-- Concrete input: the spec's charging example, 6000 full / 3000 now at
1000. -/
def filesCharge : BatteryFiles :=
  { capacity := some "50", status := some "Charging",
    energy_full := some 6000, energy_full_design := none,
    power_now := some 1000, energy_now := some 3000 }

/-- Concrete input: a capacity file reading 150. -/
def filesCap150 : BatteryFiles :=
  { capacity := some "150", status := none,
    energy_full := none, energy_full_design := none,
    power_now := none, energy_now := none }

/-- Concrete application state used by witnesses. -/
def app0 : App :=
  { battery := none, current_profile := none, selected := 1,
    list_state := some 1, message := none }

theorem parse_u8_le (s : String) (n : ℕ) (h : parse_u8 s = some n) :
    n ≤ 255 := by
  simp only [parse_u8] at h
  split at h
  · exact absurd h (by simp)
  · split at h
    · split at h
      · simp only [Option.some.injEq] at h
        omega
      · exact absurd h (by simp)
    · exact absurd h (by simp)

theorem string_error_ne_empty (e : String) : ("Error: " ++ e) ≠ "" := by
  intro hcon
  have hlen := congrArg String.length hcon
  rw [String.length_append] at hlen
  rw [show ("Error: " : String).length = 7 from by decide,
    show ("" : String).length = 0 from by decide] at hlen
  omega

theorem read_battery_some (f : BatteryFiles) (c : ℕ)
    (hc : f.capacity.bind parse_u8 = some c) :
    read_battery_info (some f) =
      some ⟨c, status_of f, health_of f,
        time_remaining_of (status_of f) f⟩ := by
  simp only [read_battery_info]
  rw [hc]

theorem health_of_eq (f : BatteryFiles) (full design : ℚ)
    (hf : f.energy_full = some full) (hd : f.energy_full_design = some design) :
    health_of f = some (f64AsU8 (full / design * 100)) := by
  simp only [health_of]
  rw [hf, hd]

theorem read_battery_health (f : BatteryFiles) (c : ℕ)
    (hc : f.capacity.bind parse_u8 = some c) (full design : ℚ)
    (hf : f.energy_full = some full) (hd : f.energy_full_design = some design) :
    Option.bind (read_battery_info (some f)) BatteryInfo.health =
      some (f64AsU8 (full / design * 100)) := by
  rw [read_battery_some f c hc]
  simp [health_of_eq f full design hf hd]

theorem time_remaining_not_charging (status : String) (f : BatteryFiles)
    (p e : ℚ) (hch : ¬ status = "Charging")
    (hp : f.power_now = some p) (hpos : 0 < p) (he : f.energy_now = some e) :
    time_remaining_of status f =
      some (toString (f64AsU32 (e / p)) ++ "h " ++
        toString (f64AsU32 ((e / p - (f64AsU32 (e / p) : ℚ)) * 60)) ++
        "m remaining") := by
  simp only [time_remaining_of, hp, he, if_neg (not_le.mpr hpos), if_neg hch]

theorem time_remaining_charging (f : BatteryFiles) (p full now : ℚ)
    (hp : f.power_now = some p) (hpos : 0 < p)
    (hf : f.energy_full = some full) (hn : f.energy_now = some now) :
    time_remaining_of "Charging" f =
      some (toString (f64AsU32 ((full - now) / p)) ++ "h " ++
        toString (f64AsU32 (((full - now) / p -
          (f64AsU32 ((full - now) / p) : ℚ)) * 60)) ++ "m until full") := by
  simp only [time_remaining_of, hp, hf, hn, if_neg (not_le.mpr hpos), if_pos]

/-- C2: for each of the three profiles, `from_governor` inverts `governor`;
and any string whose trimmed form is none of the three identifiers maps to
`none`. -/
theorem from_governor_round_trip_and_reject :
    (∀ p : Profile, Profile.from_governor p.governor = some p) ∧
    (∀ s : String, rustTrim s ≠ "powersave" → rustTrim s ≠ "schedutil" →
      rustTrim s ≠ "performance" → Profile.from_governor s = none) := by
  constructor
  · intro p
    cases p <;> decide
  · intro s h1 h2 h3
    simp only [Profile.from_governor]
    rw [if_neg h1, if_neg h2, if_neg h3]

/-- C2 witness: the round trip at `Balanced` and rejection of `"ondemand"`. -/
theorem from_governor_round_trip_and_reject_witness :
    Profile.from_governor Profile.Balanced.governor = some Profile.Balanced ∧
    Profile.from_governor "ondemand" = none :=
  ⟨from_governor_round_trip_and_reject.1 Profile.Balanced,
   from_governor_round_trip_and_reject.2 "ondemand"
     (by decide) (by decide) (by decide)⟩

/-- C7: cursor navigation is clamped to `[0, 2]` with no wraparound: `move_up`
at 0 stays at 0, `move_down` at 2 stays at 2, and from 1 each moves exactly
one step. -/
theorem cursor_navigation_clamped (a : App) :
    (App.move_up { a with selected := 0 }).selected = 0 ∧
    (App.move_down { a with selected := 2 }).selected = 2 ∧
    (App.move_up { a with selected := 1 }).selected = 0 ∧
    (App.move_down { a with selected := 1 }).selected = 2 :=
  ⟨rfl, rfl, rfl, rfl⟩

/-- C10: `move_up` and `move_down` change only the cursor (and its mirrored
list selection): battery, current profile and message are untouched. -/
theorem move_frame_condition (a : App) :
    (App.move_up a).battery = a.battery ∧
    (App.move_up a).current_profile = a.current_profile ∧
    (App.move_up a).message = a.message ∧
    (App.move_down a).battery = a.battery ∧
    (App.move_down a).current_profile = a.current_profile ∧
    (App.move_down a).message = a.message := by
  refine ⟨?_, ?_, ?_, ?_, ?_, ?_⟩ <;>
    simp only [App.move_up, App.move_down] <;> split <;> rfl

/-- C9: the whole read is absent exactly when no battery directory was found
or the capacity attribute is absent or unparseable; no other sub-computation
can make the result absent. -/
theorem read_battery_absent_iff :
    read_battery_info none = none ∧
    ∀ f : BatteryFiles,
      (read_battery_info (some f) = none ↔ f.capacity.bind parse_u8 = none) := by
  refine ⟨rfl, fun f => ?_⟩
  cases hc : f.capacity.bind parse_u8 with
  | none => simp [read_battery_info, hc]
  | some c => simp [read_battery_info, hc]

/-- C1: for every state with a valid cursor and every command outcome,
`select_profile` on success sets the current profile to the cursor's profile
and a confirmation message naming it; on failure it leaves the current
profile untouched and sets a non-empty error message. -/
theorem select_profile_outcome (a : App) (out : CmdOutcome)
    (h : a.selected < Profile.all.length) :
    (set_governor (Profile.all.get ⟨a.selected, h⟩).governor out =
        Except.ok () →
      (a.select_profile out).current_profile =
        some (Profile.all.get ⟨a.selected, h⟩) ∧
      (a.select_profile out).message =
        some ("Switched to " ++ (Profile.all.get ⟨a.selected, h⟩).name)) ∧
    (∀ e, set_governor (Profile.all.get ⟨a.selected, h⟩).governor out =
        Except.error e →
      (a.select_profile out).current_profile = a.current_profile ∧
      ∃ m, (a.select_profile out).message = some m ∧ m ≠ "") := by
  have hget : Profile.all.getD a.selected Profile.PowerSaver =
      Profile.all.get ⟨a.selected, h⟩ := by
    simp [List.getD_eq_getElem?_getD, List.getElem?_eq_getElem h,
      List.get_eq_getElem]
  cases out with
  | launchFailure e =>
    refine ⟨fun hok => absurd hok (by simp [set_governor]), fun e' _ => ?_⟩
    exact ⟨rfl, "Error: " ++ e, rfl, string_error_ne_empty e⟩
  | exited b =>
    cases b with
    | true =>
      refine ⟨fun _ => ⟨?_, ?_⟩, fun e he => absurd he (by simp [set_governor])⟩
      · show some (Profile.all.getD a.selected Profile.PowerSaver) = _
        rw [hget]
      · show some ("Switched to " ++
          (Profile.all.getD a.selected Profile.PowerSaver).name) = _
        rw [hget]
    | false =>
      refine ⟨fun hok => absurd hok (by simp [set_governor]), fun e' _ => ?_⟩
      exact ⟨rfl, "Error: " ++ "Need passwordless sudo for cpupower", rfl,
        string_error_ne_empty _⟩

/-- C1 witness: a simulated non-zero exit status at cursor 1 leaves the
current profile in place and yields a non-empty message. -/
theorem select_profile_outcome_witness :
    (App.select_profile app0 (CmdOutcome.exited false)).current_profile =
      none ∧
    ∃ m, (App.select_profile app0 (CmdOutcome.exited false)).message =
      some m ∧ m ≠ "" := by
  have h := select_profile_outcome app0 (CmdOutcome.exited false) (by decide)
  have h2 := h.2 "Need passwordless sudo for cpupower" rfl
  exact ⟨h2.1, h2.2⟩

/-- C6: if `refresh` resolves a current profile, the cursor moves to that
profile's index; if no profile is resolved, the cursor keeps its prior
value. -/
theorem refresh_cursor (a : App) (bat : Option BatteryFiles)
    (gov : Option String) :
    (∀ p, read_current_governor gov = some p →
      (a.refresh bat gov).selected = p.index) ∧
    (read_current_governor gov = none →
      (a.refresh bat gov).selected = a.selected) := by
  constructor
  · intro p hp
    simp only [App.refresh, hp]
    cases p <;> rfl
  · intro hp
    simp only [App.refresh, hp]

/-- C6 witness: a governor file reading `schedutil` moves the cursor from 1
to Balanced's index; an unrecognized governor keeps the cursor. -/
theorem refresh_cursor_witness :
    (App.refresh app0 none (some "schedutil")).selected =
      Profile.Balanced.index ∧
    (App.refresh app0 none (some "ondemand")).selected = app0.selected :=
  ⟨(refresh_cursor app0 none (some "schedutil")).1 Profile.Balanced
      (by decide),
   (refresh_cursor app0 none (some "ondemand")).2 (by decide)⟩

theorem f64AsU8_nat (full design : ℕ) (hpos : 0 < design) (hle : full ≤ design) :
    f64AsU8 ((full : ℚ) / (design : ℚ) * 100) = full * 100 / design := by
  rw [f64AsU8, Int.floor_toNat]
  have hcast : ((full : ℚ) / design * 100) =
      ((full * 100 : ℕ) : ℚ) / ((design : ℕ) : ℚ) := by
    push_cast
    ring
  rw [hcast, Nat.floor_div_eq_div]
  apply min_eq_left
  have h1 : full * 100 / design ≤ design * 100 / design :=
    Nat.div_le_div_right (Nat.mul_le_mul_right 100 hle)
  have h2 : design * 100 / design = 100 := by
    rw [Nat.mul_comm]
    exact Nat.mul_div_cancel _ hpos
  omega

theorem f64AsU32_small (x : ℚ) (hlt : x < 4294967296) :
    f64AsU32 x = ⌊x⌋.toNat := by
  rw [f64AsU32]
  apply min_eq_left
  have h1 : ⌊x⌋ < 4294967296 := by
    have hle := Int.floor_le x
    have : (⌊x⌋ : ℚ) < 4294967296 := lt_of_le_of_lt hle hlt
    exact_mod_cast this
  omega

theorem f64AsU32_frac (x : ℚ) (h0 : 0 ≤ x) :
    f64AsU32 ((x - (⌊x⌋.toNat : ℚ)) * 60) = ⌊(x - ⌊x⌋) * 60⌋.toNat := by
  have htn : ((⌊x⌋.toNat : ℕ) : ℚ) = ((⌊x⌋ : ℤ) : ℚ) := by
    rw [← Int.cast_natCast]
    congr 1
    exact Int.toNat_of_nonneg (Int.floor_nonneg.mpr h0)
  rw [htn, f64AsU32]
  apply min_eq_left
  have hlt : (x - ⌊x⌋) * 60 < 60 := by
    have := Int.lt_floor_add_one x
    nlinarith
  have h2 : ⌊(x - ⌊x⌋) * 60⌋ < 60 := by
    rw [Int.floor_lt]
    exact_mod_cast hlt
  omega

/-- C3 counterexample: with `energy_full = 9999` and
`energy_full_design = 10000` the code computes health 99, while the claimed
`round(energy_full / energy_full_design * 100)` is 100. -/
theorem health_round_counterexample :
    Option.bind (read_battery_info (some filesHealth9999)) BatteryInfo.health =
      some 99 ∧
    round ((9999 : ℚ) / 10000 * 100) = 100 := by
  constructor
  · rw [read_battery_health filesHealth9999 50 (by decide) 9999 10000 rfl rfl]
    have h9 : ((9999 : ℚ)) = ((9999 : ℕ) : ℚ) := by norm_num
    have h10 : ((10000 : ℚ)) = ((10000 : ℕ) : ℚ) := by norm_num
    rw [h9, h10, f64AsU8_nat 9999 10000 (by norm_num) (by norm_num)]
  · rw [round_eq, Int.floor_eq_iff]; norm_num

/-- C3 (amended): whenever both health attributes are present (naturals with
`0 < design` and `full ≤ design`, as sysfs reports them), the computed health
is the truncation `full * 100 / design` — floor, not round; the spec's
example `8000 / 10000 → 80` still holds. -/
theorem health_is_truncation (f : BatteryFiles) (c : ℕ)
    (hc : f.capacity.bind parse_u8 = some c) (full design : ℕ)
    (hf : f.energy_full = some (full : ℚ))
    (hd : f.energy_full_design = some (design : ℚ))
    (hpos : 0 < design) (hle : full ≤ design) :
    Option.bind (read_battery_info (some f)) BatteryInfo.health =
      some (full * 100 / design) := by
  rw [read_battery_health f c hc _ _ hf hd, f64AsU8_nat full design hpos hle]

/-- C3 witness: the spec's health example `8000 / 10000` yields 80. -/
theorem health_is_truncation_witness :
    Option.bind (read_battery_info (some filesHealth80)) BatteryInfo.health =
      some 80 := by
  have h := health_is_truncation filesHealth80 50 (by decide) 8000 10000
    (by simp [filesHealth80]) (by simp [filesHealth80]) (by norm_num)
    (by norm_num)
  rw [show (8000 * 100 / 10000 : ℕ) = 80 from by norm_num] at h
  exact h

/-- C4 counterexample: at `energy_now = 1999`, `power_now = 1000`
(hours = 1.999) the code displays 59 minutes, while the claimed
`round((hours - floor hours) * 60)` is 60. -/
theorem time_minutes_round_counterexample :
    Option.bind (read_battery_info (some filesDis1999))
        BatteryInfo.time_remaining = some "1h 59m remaining" ∧
    round (((1999 : ℚ) / 1000 - ⌊(1999 : ℚ) / 1000⌋) * 60) = 60 := by
  have hfl : ⌊(1999 : ℚ) / 1000⌋ = 1 := by
    rw [Int.floor_eq_iff]; norm_num
  constructor
  · rw [read_battery_some filesDis1999 50 (by decide)]
    show time_remaining_of (status_of filesDis1999) filesDis1999 = _
    rw [show status_of filesDis1999 = "Discharging" from by decide]
    rw [time_remaining_not_charging "Discharging" filesDis1999 1000 1999
      (by decide) rfl (by norm_num) rfl]
    have h1 : f64AsU32 ((1999 : ℚ) / 1000) = 1 := by
      rw [f64AsU32_small _ (by norm_num), hfl]
      rfl
    rw [h1]
    have h2 : f64AsU32 (((1999 : ℚ) / 1000 - ((1 : ℕ) : ℚ)) * 60) = 59 := by
      rw [f64AsU32_small _ (by norm_num)]
      rw [show ⌊((1999 : ℚ) / 1000 - ((1 : ℕ) : ℚ)) * 60⌋ = 59 from by
        rw [Int.floor_eq_iff]; norm_num]
      rfl
    rw [h2]
    decide
  · rw [hfl, round_eq, Int.floor_eq_iff]; push_cast; norm_num

/-- C4 (amended): whenever the code produces a time string, the duration in
hours is energy / power, the displayed hour count is `⌊hours⌋`, the displayed
minute count is the truncation `⌊(hours - ⌊hours⌋) * 60⌋` — floor, not round —
and the string has the form `"<H>h <M>m <suffix>"`. -/
theorem time_string_format (f : BatteryFiles) (c : ℕ)
    (hc : f.capacity.bind parse_u8 = some c) (p : ℚ)
    (hp : f.power_now = some p) (hpos : 0 < p) :
    (∀ e, ¬ status_of f = "Charging" → f.energy_now = some e → 0 ≤ e →
      e / p < 4294967296 →
      Option.bind (read_battery_info (some f)) BatteryInfo.time_remaining =
        some (toString (⌊e / p⌋.toNat) ++ "h " ++
          toString (⌊(e / p - ⌊e / p⌋) * 60⌋.toNat) ++ "m remaining")) ∧
    (∀ full now, status_of f = "Charging" → f.energy_full = some full →
      f.energy_now = some now → 0 ≤ full - now →
      (full - now) / p < 4294967296 →
      Option.bind (read_battery_info (some f)) BatteryInfo.time_remaining =
        some (toString (⌊(full - now) / p⌋.toNat) ++ "h " ++
          toString (⌊((full - now) / p - ⌊(full - now) / p⌋) * 60⌋.toNat) ++
          "m until full")) := by
  constructor
  · intro e hch he he0 hlt
    rw [read_battery_some f c hc]
    show time_remaining_of (status_of f) f = _
    rw [time_remaining_not_charging _ f p e hch hp hpos he]
    rw [f64AsU32_small _ hlt, f64AsU32_frac _ (div_nonneg he0 hpos.le)]
  · intro full now hst hf hn hd0 hlt
    rw [read_battery_some f c hc]
    show time_remaining_of (status_of f) f = _
    rw [hst, time_remaining_charging f p full now hp hpos hf hn]
    rw [f64AsU32_small _ hlt, f64AsU32_frac _ (div_nonneg hd0 hpos.le)]

/-- C4 witness: the discharging example `1999 / 1000` produces
"1h 59m remaining" through the floor formulas. -/
theorem time_string_format_witness :
    Option.bind (read_battery_info (some filesDis1999))
      BatteryInfo.time_remaining =
      some ("1h " ++ toString ((59 : ℤ).toNat) ++ "m remaining") := by
  have h := (time_string_format filesDis1999 50 (by decide) 1000 rfl
    (by norm_num)).1 1999 (by decide) rfl (by norm_num) (by norm_num)
  rw [show ⌊(1999 : ℚ) / 1000⌋ = 1 from by rw [Int.floor_eq_iff]; norm_num]
    at h
  rw [show ⌊((1999 : ℚ) / 1000 - ((1 : ℤ) : ℚ)) * 60⌋ = 59 from by
    rw [Int.floor_eq_iff]; push_cast; norm_num] at h
  rw [h]
  decide

/-- C8: when a time estimate is computed (positive power draw): if the status
is "Charging" the energy used is `energy_full - energy_now` and the string
ends in "until full"; for any other status the energy is `energy_now` and the
string ends in "remaining". -/
theorem time_branch_selection (f : BatteryFiles) (c : ℕ)
    (hc : f.capacity.bind parse_u8 = some c) (p : ℚ)
    (hp : f.power_now = some p) (hpos : 0 < p) :
    (∀ full now, status_of f = "Charging" → f.energy_full = some full →
      f.energy_now = some now →
      Option.bind (read_battery_info (some f)) BatteryInfo.time_remaining =
        some (toString (f64AsU32 ((full - now) / p)) ++ "h " ++
          toString (f64AsU32 (((full - now) / p -
            (f64AsU32 ((full - now) / p) : ℚ)) * 60)) ++ "m until full")) ∧
    (∀ now, ¬ status_of f = "Charging" → f.energy_now = some now →
      Option.bind (read_battery_info (some f)) BatteryInfo.time_remaining =
        some (toString (f64AsU32 (now / p)) ++ "h " ++
          toString (f64AsU32 ((now / p - (f64AsU32 (now / p) : ℚ)) * 60)) ++
          "m remaining")) := by
  constructor
  · intro full now hst hf hn
    rw [read_battery_some f c hc]
    show time_remaining_of (status_of f) f = _
    rw [hst, time_remaining_charging f p full now hp hpos hf hn]
  · intro now hch hn
    rw [read_battery_some f c hc]
    show time_remaining_of (status_of f) f = _
    exact time_remaining_not_charging _ f p now hch hp hpos hn

/-- C8 witness: the spec's charging example `energy_full = 6000`,
`energy_now = 3000`, `power_now = 1000` yields "3h 0m until full". -/
theorem time_branch_selection_witness :
    Option.bind (read_battery_info (some filesCharge))
      BatteryInfo.time_remaining = some "3h 0m until full" := by
  have h := (time_branch_selection filesCharge 50 (by decide) 1000 rfl
    (by norm_num)).1 6000 3000 (by decide) rfl rfl
  have e1 : f64AsU32 (((6000 : ℚ) - 3000) / 1000) = 3 := by
    rw [f64AsU32_small _ (by norm_num)]
    rw [show ⌊((6000 : ℚ) - 3000) / 1000⌋ = 3 from by
      rw [Int.floor_eq_iff]; norm_num]
    rfl
  rw [e1] at h
  have e2 : f64AsU32 ((((6000 : ℚ) - 3000) / 1000 - ((3 : ℕ) : ℚ)) * 60) =
      0 := by
    rw [f64AsU32_small _ (by norm_num)]
    rw [show ⌊(((6000 : ℚ) - 3000) / 1000 - ((3 : ℕ) : ℚ)) * 60⌋ = 0 from by
      rw [Int.floor_eq_iff]; push_cast; norm_num]
    rfl
  rw [e2] at h
  rw [h]
  decide

/-- C5 counterexample: a capacity file reading `150` parses as a `u8` and
yields a `BatteryInfo` whose capacity is 150, outside the claimed 0–100
range. -/
theorem capacity_percent_counterexample :
    Option.map BatteryInfo.capacity (read_battery_info (some filesCap150)) =
      some 150 ∧ ¬ (150 : ℕ) ≤ 100 := by
  constructor
  · rw [read_battery_some filesCap150 150 (by decide)]
    rfl
  · decide

/-- C5 (amended): every returned capacity is an integer in the `u8` range
`[0, 255]` (the parse fails beyond that); it lies in 0–100 only when the
kernel-reported value itself does. -/
theorem capacity_u8_range (bat : Option BatteryFiles) (info : BatteryInfo)
    (h : read_battery_info bat = some info) : info.capacity ≤ 255 := by
  cases bat with
  | none => exact absurd h (by simp [read_battery_info])
  | some f =>
    cases hc : f.capacity.bind parse_u8 with
    | none =>
      have hnone : read_battery_info (some f) = none := by
        simp only [read_battery_info]
        rw [hc]
      rw [hnone] at h
      exact absurd h (by simp)
    | some c =>
      rw [read_battery_some f c hc] at h
      injection h with h'
      subst h'
      obtain ⟨s, hps⟩ : ∃ s, parse_u8 s = some c := by
        cases hcs : f.capacity with
        | none => rw [hcs] at hc; exact absurd hc (by simp)
        | some s => rw [hcs] at hc; exact ⟨s, hc⟩
      exact parse_u8_le s c hps

/-- C5 witness: the `150` capacity read is within the `u8` range. -/
theorem capacity_u8_range_witness :
    (⟨150, "Unknown", none, none⟩ : BatteryInfo).capacity ≤ 255 :=
  capacity_u8_range (some filesCap150) ⟨150, "Unknown", none, none⟩
    (by decide)
